import Mathlib

/-!
Shallow embedding of the self-improvement core of `self_improving_ai.py`
(class `SelfImprovingAI`): the SQLite-backed metrics / learning / insight
stores, the local-knowledge lookup, the external-search aggregation with its
solution synthesizer, and the reflection pass.

Modelling conventions:
* SQLite tables become Lean lists of row structures kept in insertion order;
  a plain `INSERT` on a duplicate primary key becomes an `integrityError`.
* Python `float` becomes `ℚ` (exact arithmetic; the spec's numerical claims
  are stated "within floating-point tolerance", which this realizes exactly).
* JSON values exchanged with collaborators become the `Json` inductive below;
  `dict.get(k, d)` becomes `jgetD`.
* Every external collaborator call is replaced by its observable response, an
  `Except Unit (...)` argument: `.error ()` models a raised exception, `.ok`
  carries the HTTP status and the (already parsed) payload, with `none` for
  a body that fails JSON parsing.
* Fresh values produced inside an operation (`time.time()` stamps,
  `_generate_id` hashes) are passed in as explicit arguments.
-/

/-- JSON values, as produced by `json.loads` / consumed by `json.dumps`. -/
inductive Json where
  | str : String → Json
  | num : ℚ → Json
  | bool : Bool → Json
  | null : Json
  | arr : List Json → Json
  | obj : List (String × Json) → Json

/-- Field lookup on a JSON object (`d[k]` / `d.get(k)`): `none` when the value
is not an object or the key is absent. -/
def jsonGet (j : Json) (k : String) : Option Json :=
  match j with
  | .obj fields => fields.lookup k
  | _ => none

/-- `d.get(k, default)` on a JSON object. -/
def jgetD (j : Json) (k : String) (default : Json) : Json :=
  (jsonGet j k).getD default

/-- `d.get(k)` on a JSON object (default `None`). -/
def jget (j : Json) (k : String) : Json :=
  jgetD j k .null

/-- The key list of a JSON object (empty for non-objects). -/
def jsonKeys (j : Json) : List String :=
  match j with
  | .obj fields => fields.map Prod.fst
  | _ => []

/-- String projection of a JSON value, for values stored into TEXT columns. -/
def jsonAsStr (j : Json) : String :=
  match j with
  | .str s => s
  | _ => ""

/-- Numeric projection of a JSON value, for values stored into REAL columns. -/
def jsonAsNum (j : Json) : ℚ :=
  match j with
  | .num q => q
  | _ => 0

/-- ASCII-case-insensitive substring test on character lists. -/
def charsContain (hay needle : List Char) : Bool :=
  hay.tails.any (fun t => needle.isPrefixOf t)

/-- SQLite `column LIKE '%pat%'`: ASCII-case-insensitive containment.
(`%`/`_` wildcards inside `pat` itself are not used by the concrete inputs
considered here.) -/
def likeContains (hay pat : String) : Bool :=
  charsContain (hay.toList.map Char.toLower) (pat.toList.map Char.toLower)

/-- A row of the `performance_metrics` table (dataclass `PerformanceMetrics`). -/
structure PerformanceMetrics where
  operation_id : String
  operation_type : String
  start_time : ℚ
  end_time : ℚ
  duration : ℚ
  success : Bool
  error_message : Option String
  confidence_score : ℚ
  tokens_used : ℤ
  quality_score : ℚ
  user_feedback : Option String
  timestamp : String
  deriving DecidableEq

/-- A row of the `learning_entries` table (dataclass `LearningEntry`).
`success_rate` and `solution` keep their dynamically-typed JSON payloads. -/
structure LearningEntry where
  entry_id : String
  timestamp : String
  category : String
  problem : String
  solution : Json
  success_rate : Json
  times_used : ℕ
  effectiveness_score : ℚ
  source : String

/-- A row of the `error_patterns` table. -/
structure ErrorPattern where
  pattern_id : String
  error_signature : String
  error_type : String
  solution_count : ℕ
  best_solution : String
  avg_fix_time : ℚ
  last_seen : String
  deriving DecidableEq

/-- A row of the `optimization_insights` table. -/
structure OptimizationInsight where
  insight_id : String
  insight_type : String
  description : String
  impact_score : ℚ
  implementation_count : ℕ
  avg_improvement : ℚ
  created_at : String
  deriving DecidableEq

/-- An open record in the in-memory `performance_history` list. -/
structure OpenOperation where
  operation_id : String
  operation_type : String
  start_time : ℚ
  deriving DecidableEq

/-- The in-memory cache written by `_analyze_performance`. -/
structure RateCache where
  success_rate : ℚ
  avg_duration : ℚ
  avg_quality : ℚ
  total_operations : ℕ
  deriving DecidableEq

/-- The full mutable state of a `SelfImprovingAI` instance: the four SQLite
tables of `_init_databases` plus the in-memory history and cache. -/
structure DB where
  performance_metrics : List PerformanceMetrics
  learning_entries : List LearningEntry
  error_patterns : List ErrorPattern
  optimization_insights : List OptimizationInsight
  performance_history : List OpenOperation
  success_rate_cache : List (String × RateCache)

/-- The state right after `__init__` / `_init_databases` on a fresh file. -/
def initDB : DB :=
  { performance_metrics := []
    learning_entries := []
    error_patterns := []
    optimization_insights := []
    performance_history := []
    success_rate_cache := [] }

/-- `sqlite3.IntegrityError`, the one storage failure the model tracks. -/
inductive StorageError where
  | integrityError
  deriving DecidableEq

/-- Insert `p` into a list sorted by ascending `avg_fix_time`. -/
def insertByFixTime (p : ErrorPattern) : List ErrorPattern → List ErrorPattern
  | [] => [p]
  | q :: qs =>
    if p.avg_fix_time < q.avg_fix_time then p :: q :: qs
    else q :: insertByFixTime p qs

/-- `ORDER BY avg_fix_time ASC` over `error_patterns` rows. -/
def sortByFixTime (l : List ErrorPattern) : List ErrorPattern :=
  l.foldr insertByFixTime []

/-- The solution dict built from an `error_patterns` row by
`_search_local_knowledge`. -/
def localSolutionJson (p : ErrorPattern) : Json :=
  .obj [("source", .str "local_knowledge"),
        ("error_type", .str p.error_type),
        ("best_solution", .str p.best_solution),
        ("avg_fix_time", .num p.avg_fix_time),
        ("confidence", .num (9/10))]

/-- `_search_local_knowledge`: `SELECT * FROM error_patterns WHERE
error_signature LIKE '%msg[:50]%' ORDER BY avg_fix_time ASC LIMIT 5`,
each row rendered as a solution dict. -/
def searchLocalKnowledge (db : DB) (error_message : String) : List Json :=
  ((sortByFixTime (db.error_patterns.filter
      (fun p => likeContains p.error_signature (error_message.take 50)))).take 5).map
    localSolutionJson

/-- Normalization of one Stack Overflow item inside `_search_stackoverflow`;
`none` models the `AttributeError` raised by `.get` on a non-dict item
(caught by the surrounding handler, which then yields `[]`). -/
def normalizeStackoverflowItem (item : Json) : Option Json :=
  match item with
  | .obj _ =>
    some (.obj [("source", .str "stackoverflow"),
                ("title", jget item "title"),
                ("url", jget item "link"),
                ("score", jgetD item "score" (.num 0)),
                ("answer_count", jgetD item "answer_count" (.num 0)),
                ("is_answered", jgetD item "is_answered" (.bool false)),
                ("tags", jgetD item "tags" (.arr []))])
  | _ => none

/-- The item list of a search response body: `data.get("items", [])`.
A non-list value makes the subsequent iteration raise, reported as `none`. -/
def responseItems (data : Json) : Option (List Json) :=
  match jgetD data "items" (.arr []) with
  | .arr l => some l
  | _ => none

/-- `_search_stackoverflow`: on an exception (`.error`) or a non-200 status
the collaborator degrades to `[]`; on 200 the first five items are
normalized (any normalization failure is caught, degrading to `[]`). -/
def searchStackoverflow (resp : Except Unit (ℕ × Json)) : List Json :=
  match resp with
  | .error _ => []
  | .ok (status, data) =>
    if status = 200 then
      match responseItems data with
      | some items =>
        match (items.take 5).mapM normalizeStackoverflowItem with
        | some results => results
        | none => []
      | none => []
    else []

/-- Normalization of one GitHub issue inside `_search_github_issues`;
`item.get("reactions", {}).get("total_count", 0)` raises (→ `none`) when the
`reactions` value is present but not a dict. -/
def normalizeGithubItem (item : Json) : Option Json :=
  match item with
  | .obj _ =>
    match jgetD item "reactions" (.obj []) with
    | .obj reactions =>
      some (.obj [("source", .str "github"),
                  ("title", jget item "title"),
                  ("url", jget item "html_url"),
                  ("state", jget item "state"),
                  ("comments", jgetD item "comments" (.num 0)),
                  ("reactions", (reactions.lookup "total_count").getD (.num 0))])
    | _ => none
  | _ => none

/-- `_search_github_issues`: same failure wrapping as Stack Overflow. -/
def searchGithubIssues (resp : Except Unit (ℕ × Json)) : List Json :=
  match resp with
  | .error _ => []
  | .ok (status, data) =>
    if status = 200 then
      match responseItems data with
      | some items =>
        match items.mapM normalizeGithubItem with
        | some results => results
        | none => []
      | none => []
    else []

/-- `_search_unreal_forums`: a fixed placeholder result, no network call. -/
def searchUnrealForums (query : String) : List Json :=
  [.obj [("source", .str "unreal_forums"),
         ("title", .str "Check Unreal Engine forums manually"),
         ("url", .str ("https://forums.unrealengine.com/search?q=" ++
            query.replace " " "+")),
         ("note", .str "Manual search recommended")]]

/-- The fixed fallback dict returned by `_synthesize_solutions` when the
text-generation call raises, returns a non-200 status, or yields unparsable
output. -/
def synthesisFallback : Json :=
  .obj [("recommended_solution", .str "Manual review required"),
        ("confidence", .num (3/10)),
        ("reasoning", .str "Unable to synthesize solutions"),
        ("alternative_solutions", .arr []),
        ("estimated_fix_time", .str "unknown")]

/-- A text-generation collaborator response: `.error` for a raised exception,
otherwise the HTTP status and the parsed JSON content of the first choice
(`none` when unwrapping or `json.loads` fails). -/
def genCallFailed (resp : Except Unit (ℕ × Option Json)) : Bool :=
  match resp with
  | .error _ => true
  | .ok (status, parsed) => status != 200 || parsed.isNone

/-- `_synthesize_solutions`: returns the collaborator's parsed JSON on a
fully successful call and `synthesisFallback` otherwise. The error message
and the collected solutions only shape the prompt, not the result. -/
def synthesizeSolutions (error_message : String) (solutions : List Json)
    (resp : Except Unit (ℕ × Option Json)) : Json :=
  match resp with
  | .error _ => synthesisFallback
  | .ok (status, parsed) =>
    if status = 200 then
      match parsed with
      | some j => j
      | none => synthesisFallback
    else synthesisFallback

/-- `_store_learned_solution`: builds a `LearningEntry` with
`times_used = 0`, `effectiveness_score = 0.0` and
`success_rate = solution.get("confidence", 0.5)`, then
`INSERT OR REPLACE` keyed on the freshly generated `entry_id`. -/
def storeLearnedSolution (db : DB) (problem : String) (solution : Json)
    (source : String) (entry_id timestamp : String) : DB :=
  let entry : LearningEntry :=
    { entry_id := entry_id
      timestamp := timestamp
      category := "error_solution"
      problem := problem
      solution := solution
      success_rate := jgetD solution "confidence" (.num (1/2))
      times_used := 0
      effectiveness_score := 0
      source := source }
  if db.learning_entries.any (fun e => e.entry_id == entry_id) then
    { db with learning_entries :=
        db.learning_entries.map (fun e => if e.entry_id == entry_id then entry else e) }
  else
    { db with learning_entries := db.learning_entries ++ [entry] }

/-- The 1.0 / 0.0 outcome recorded by `record_solution_success`. -/
def outcomeVal (worked : Bool) : ℚ :=
  if worked then 1 else 0

/-- The per-row update of `record_solution_success`:
`new_times_used = times_used + 1`;
`new_effectiveness = (effectiveness_score * times_used + outcome) / new_times_used`. -/
def recordOutcomeUpdate (worked : Bool) (e : LearningEntry) : LearningEntry :=
  let new_times_used := e.times_used + 1
  let new_effectiveness :=
    (e.effectiveness_score * e.times_used + outcomeVal worked) / (new_times_used : ℚ)
  { e with times_used := new_times_used, effectiveness_score := new_effectiveness }

/-- Apply `recordOutcomeUpdate` to the first row matching
`problem LIKE '%pat%'` (the row `fetchone` returns), if any. -/
def updateFirstMatch (pat : String) (worked : Bool) :
    List LearningEntry → List LearningEntry
  | [] => []
  | e :: es =>
    if likeContains e.problem pat then recordOutcomeUpdate worked e :: es
    else e :: updateFirstMatch pat worked es

/-- `record_solution_success`: looks up the first `learning_entries` row with
`problem LIKE '%problem[:50]%'` and applies the running-mean update; a miss
is a silent no-op. -/
def recordSolutionSuccess (db : DB) (problem : String) (worked : Bool) : DB :=
  { db with learning_entries :=
      updateFirstMatch (problem.take 50) worked db.learning_entries }

/-- `start_operation`: allocates an id (passed in, being hash-of-time fresh
data) and appends an open record to the in-memory history. -/
def startOperation (db : DB) (operation_type operation_id : String)
    (start_time : ℚ) : DB :=
  { db with performance_history :=
      db.performance_history ++
        [{ operation_id := operation_id
           operation_type := operation_type
           start_time := start_time }] }

/-- `_store_metrics`: a plain `INSERT` into `performance_metrics`; a duplicate
`operation_id` (the primary key) raises `sqlite3.IntegrityError` and, the
transaction never being committed, leaves the table unchanged. -/
def storeMetrics (db : DB) (m : PerformanceMetrics) : Except StorageError DB :=
  if db.performance_metrics.any (fun r => r.operation_id == m.operation_id) then
    .error .integrityError
  else
    .ok { db with performance_metrics := db.performance_metrics ++ [m] }

/-- The `performance_metrics` rows of one operation type. -/
def metricsOfType (db : DB) (operation_type : String) : List PerformanceMetrics :=
  db.performance_metrics.filter (fun r => r.operation_type == operation_type)

/-- `SUM(success) / COUNT(*)` for one operation type (0 when no rows, as in
`_analyze_performance`'s `if total > 0 else 0` guard). -/
def successRateOf (db : DB) (operation_type : String) : ℚ :=
  let rows := metricsOfType db operation_type
  if rows.length > 0 then
    ((rows.filter (fun r => r.success)).length : ℚ) / (rows.length : ℚ)
  else 0

/-- `AVG(duration)` for one operation type (`AVG` over zero rows is NULL;
taken as 0 here, a case `_analyze_performance` never reaches since it runs
right after an insert). -/
def avgDurationOf (db : DB) (operation_type : String) : ℚ :=
  let rows := metricsOfType db operation_type
  (rows.map (fun r => r.duration)).sum / (rows.length : ℚ)

/-- `AVG(quality_score)` for one operation type. -/
def avgQualityOf (db : DB) (operation_type : String) : ℚ :=
  let rows := metricsOfType db operation_type
  (rows.map (fun r => r.quality_score)).sum / (rows.length : ℚ)

/-- Python dict assignment `cache[key] = value`. -/
def setCache (cache : List (String × RateCache)) (key : String)
    (value : RateCache) : List (String × RateCache) :=
  if cache.any (fun p => p.1 == key) then
    cache.map (fun p => if p.1 == key then (key, value) else p)
  else cache ++ [(key, value)]

/-- `_create_improvement_insight`: `INSERT OR IGNORE` into
`optimization_insights`, keyed on the freshly generated `insight_id` (a hash
of description + current time, passed in here); the row is dropped exactly
when that id already exists. -/
def createImprovementInsight (db : DB) (description : String)
    (impact_score : ℚ) (insight_id created_at : String) : DB :=
  if db.optimization_insights.any (fun r => r.insight_id == insight_id) then db
  else
    { db with optimization_insights :=
        db.optimization_insights ++
          [{ insight_id := insight_id
             insight_type := "performance"
             description := description
             impact_score := impact_score
             implementation_count := 0
             avg_improvement := 0
             created_at := created_at }] }

/-- `_analyze_performance`: recomputes the all-time aggregate for the metric's
operation type, refreshes the in-memory cache, and fires the two local
threshold rules (`success_rate < 0.7`, `avg_duration > 30`). It makes no
external collaborator call. -/
def analyzePerformance (db : DB) (m : PerformanceMetrics)
    (lowId slowId created_at : String) : DB :=
  let success_rate := successRateOf db m.operation_type
  let avg_duration := avgDurationOf db m.operation_type
  let cacheEntry : RateCache :=
    { success_rate := success_rate
      avg_duration := avg_duration
      avg_quality := avgQualityOf db m.operation_type
      total_operations := (metricsOfType db m.operation_type).length }
  let db1 :=
    { db with success_rate_cache :=
        setCache db.success_rate_cache m.operation_type cacheEntry }
  let db2 :=
    if success_rate < 7/10 then
      createImprovementInsight db1 ("Low success rate for " ++ m.operation_type)
        success_rate lowId created_at
    else db1
  if avg_duration > 30 then
    createImprovementInsight db2 ("Slow performance for " ++ m.operation_type)
      avg_duration slowId created_at
  else db2

/-- The closed `PerformanceMetrics` row `end_operation` builds for an open
record: `error_message` is stored exactly as supplied, whatever `success`
holds. -/
def closedMetrics (operation_id : String) (op : OpenOperation) (success : Bool)
    (error_message : Option String) (confidence_score quality_score : ℚ)
    (tokens_used : ℤ) (end_time : ℚ) (timestamp : String) : PerformanceMetrics :=
  { operation_id := operation_id
    operation_type := op.operation_type
    start_time := op.start_time
    end_time := end_time
    duration := end_time - op.start_time
    success := success
    error_message := error_message
    confidence_score := confidence_score
    tokens_used := tokens_used
    quality_score := quality_score
    user_feedback := none
    timestamp := timestamp }

/-- `end_operation`: looks up the open record by id (`next(..., None)`); a
miss is a silent no-op; a hit builds the closed `PerformanceMetrics` row,
then `_store_metrics` persists it and `_analyze_performance` runs. The open
record is never removed from `performance_history`. -/
def endOperation (db : DB) (operation_id : String) (success : Bool)
    (error_message : Option String) (confidence_score quality_score : ℚ)
    (tokens_used : ℤ) (end_time : ℚ)
    (timestamp lowId slowId : String) : Except StorageError DB :=
  match db.performance_history.find? (fun op => op.operation_id == operation_id) with
  | none => .ok db
  | some op =>
    let m := closedMetrics operation_id op success error_message confidence_score
      quality_score tokens_used end_time timestamp
    match storeMetrics db m with
    | .error e => .error e
    | .ok db1 => .ok (analyzePerformance db1 m lowId slowId timestamp)

/-- The fixed fallback dict returned by `reflect_and_improve` when the
text-generation call raises, returns a non-200 status, or yields unparsable
output. -/
def reflectionFallback : Json :=
  .obj [("overall_health", .str "unknown"),
        ("message", .str "Unable to perform reflection")]

/-- The `improvement_priorities` list of a successful reflection
(`reflection.get("improvement_priorities", [])`). -/
def improvementPriorities (reflection : Json) : List Json :=
  match jsonGet reflection "improvement_priorities" with
  | some (.arr l) => l
  | _ => []

/-- `reflect_and_improve`: when the text-generation call succeeds and parses,
each improvement priority is persisted through
`_create_improvement_insight` (one fresh insight id per item, zipped in) and
the parsed reflection is returned; on any failure the fixed fallback is
returned and no insight is written. -/
def reflectAndImprove (db : DB) (resp : Except Unit (ℕ × Option Json))
    (insight_ids : List String) (created_at : String) : Json × DB :=
  match resp with
  | .error _ => (reflectionFallback, db)
  | .ok (status, parsed) =>
    if status = 200 then
      match parsed with
      | some reflection =>
        let db' := ((improvementPriorities reflection).zip insight_ids).foldl
          (fun d pi =>
            createImprovementInsight d
              (jsonAsStr (jgetD pi.1 "recommended_action" (.str "")))
              (jsonAsNum (jgetD pi.1 "current_metric" (.num 0)))
              pi.2 created_at) db
        (reflection, db')
      | none => (reflectionFallback, db)
    else (reflectionFallback, db)

/-- `context and context.get("engine") == "unreal"`. -/
def engineIsUnreal (context : Option Json) : Bool :=
  match context with
  | some c =>
    match jsonGet c "engine" with
    | some (.str s) => s == "unreal"
    | _ => false
  | none => false

/-- The responses of the three external collaborators a single
`search_error_solution` call may consult. -/
structure CollabResponses where
  stackoverflow : Except Unit (ℕ × Json)
  github : Except Unit (ℕ × Json)
  textGen : Except Unit (ℕ × Option Json)

/-- What one `search_error_solution` call produces: its return value, the
external collaborators it consulted (in call order), and the state after. -/
structure SearchOutcome where
  results : List Json
  collaboratorsCalled : List String
  db : DB

/-- `search_error_solution`: local knowledge first — a non-empty local result
is returned immediately with no external call; otherwise Stack Overflow,
GitHub, conditionally the Unreal forums, then the synthesizer run, the
synthesized solution is cached in `learning_entries`, and the concatenated
external results are returned. -/
def searchErrorSolution (db : DB) (error_message : String)
    (context : Option Json) (rs : CollabResponses)
    (entry_id entry_timestamp : String) : SearchOutcome :=
  let local_solutions := searchLocalKnowledge db error_message
  if local_solutions.isEmpty then
    let stackoverflow_results := searchStackoverflow rs.stackoverflow
    let github_results := searchGithubIssues rs.github
    let unreal_results :=
      if engineIsUnreal context then searchUnrealForums error_message else []
    let solutions := stackoverflow_results ++ github_results ++ unreal_results
    let best_solution := synthesizeSolutions error_message solutions rs.textGen
    let db' := storeLearnedSolution db error_message best_solution "web_search"
      entry_id entry_timestamp
    { results := solutions
      collaboratorsCalled :=
        ["stackoverflow", "github"] ++
          (if engineIsUnreal context then ["unreal_forums"] else []) ++
          ["text_generation"]
      db := db' }
  else
    { results := local_solutions, collaboratorsCalled := [], db := db }

/-- One invocation of a state-mutating public operation of `SelfImprovingAI`,
with all its fresh data (ids, clock readings) and collaborator responses.
The read-only reports (`get_performance_report`, `get_top_solutions`) touch
no state and need no event. -/
inductive Event where
  | startOp (operation_type operation_id : String) (start_time : ℚ)
  | endOp (operation_id : String) (success : Bool)
      (error_message : Option String) (confidence_score quality_score : ℚ)
      (tokens_used : ℤ) (end_time : ℚ) (timestamp lowId slowId : String)
  | search (error_message : String) (context : Option Json)
      (rs : CollabResponses) (entry_id entry_timestamp : String)
  | recordOutcome (problem : String) (worked : Bool)
  | reflect (resp : Except Unit (ℕ × Option Json))
      (insight_ids : List String) (created_at : String)

/-- Apply one event to the state; a storage error propagates to the caller
and leaves the uncommitted transaction without effect. -/
def applyEvent (db : DB) (e : Event) : DB :=
  match e with
  | .startOp ty id t => startOperation db ty id t
  | .endOp id s em c q tok et ts li si =>
    match endOperation db id s em c q tok et ts li si with
    | .ok db' => db'
    | .error _ => db
  | .search msg ctx rs eid ets => (searchErrorSolution db msg ctx rs eid ets).db
  | .recordOutcome p w => recordSolutionSuccess db p w
  | .reflect resp ids ts => (reflectAndImprove db resp ids ts).2

/-- The state reached from a fresh database by a sequence of operations. -/
def replay (events : List Event) : DB :=
  events.foldl applyEvent initDB

/-- Ranking `ORDER BY effectiveness_score DESC, times_used DESC`. -/
def entryRanksBefore (a b : LearningEntry) : Bool :=
  if b.effectiveness_score < a.effectiveness_score then true
  else if a.effectiveness_score == b.effectiveness_score then
    decide (b.times_used < a.times_used)
  else false

/-- Insertion step for `sortByEffectiveness`. -/
def insertByRank (e : LearningEntry) : List LearningEntry → List LearningEntry
  | [] => [e]
  | x :: xs => if entryRanksBefore e x then e :: x :: xs else x :: insertByRank e xs

/-- Sort learning entries by (effectiveness desc, times_used desc). -/
def sortByEffectiveness (l : List LearningEntry) : List LearningEntry :=
  l.foldr insertByRank []

/-- Modelled from the spec: `lookupBySimilarProblem` (§4.2) — the Learning
Store lookup over `learning_entries`, which the source file does not
implement (its local lookup reads `error_patterns` instead): entries whose
stored problem text contains the query (substring match), ordered by
effectiveness then usage, empty query yielding the empty result. -/
def lookupBySimilarProblem (db : DB) (problem_text : String) : List LearningEntry :=
  if problem_text.isEmpty then []
  else sortByEffectiveness
    (db.learning_entries.filter (fun e => likeContains e.problem problem_text))

/-- Whether a search collaborator call failed (exception or non-200 status),
the condition under which its wrapper degrades to `[]`. -/
def searchCallFailed (resp : Except Unit (ℕ × Json)) : Bool :=
  match resp with
  | .error _ => true
  | .ok (status, _) => status != 200

/-- A concrete fresh learning entry for instantiating the theorems. -/
def exampleEntry : LearningEntry :=
  { entry_id := "e1"
    timestamp := "2024-01-01T00:00:00"
    category := "error_solution"
    problem := "boom crash in renderer"
    solution := .null
    success_rate := .num (1/2)
    times_used := 0
    effectiveness_score := 0
    source := "web_search" }

/-- A state whose learning store matches "boom crash" while the
`error_patterns` cache is empty. -/
def learnedOnlyDB : DB :=
  { initDB with learning_entries := [exampleEntry] }

/-- A concrete `error_patterns` row. -/
def examplePattern : ErrorPattern :=
  { pattern_id := "p1"
    error_signature := "boom crash in renderer"
    error_type := "RuntimeError"
    solution_count := 1
    best_solution := "restart the renderer"
    avg_fix_time := 2
    last_seen := "2024-01-01T00:00:00" }

/-- A state whose `error_patterns` cache matches "boom crash". -/
def patternDB : DB :=
  { initDB with error_patterns := [examplePattern] }

/-- A state with one open operation record and nothing else. -/
def historyDB : DB :=
  { initDB with performance_history :=
      [{ operation_id := "op1", operation_type := "code_generation", start_time := 0 }] }

/-- Collaborator responses in which every external call raises. -/
def failingResponses : CollabResponses :=
  { stackoverflow := .error ()
    github := .error ()
    textGen := .error () }

/-- Collaborator responses in which only GitHub answers (one issue). -/
def mixedResponses : CollabResponses :=
  { stackoverflow := .error ()
    github := .ok (200, .obj [("items", .arr [.obj [("title", .str "fixed")]])])
    textGen := .error () }

/-- A closed metrics row with the given id, type, outcome, duration and
quality (start at 0, no error text, zero confidence and token counts). -/
def mkMetric (operation_id operation_type : String) (success : Bool)
    (duration quality_score : ℚ) : PerformanceMetrics :=
  { operation_id := operation_id
    operation_type := operation_type
    start_time := 0
    end_time := duration
    duration := duration
    success := success
    error_message := none
    confidence_score := 0
    tokens_used := 0
    quality_score := quality_score
    user_feedback := none
    timestamp := "2024-01-01T00:00:00" }

/-- A state where operation type "X" has an all-time success rate of 1/2. -/
def lowRateDB : DB :=
  { initDB with performance_metrics :=
      [mkMetric "m1" "X" true 1 0, mkMetric "m2" "X" false 1 0] }

/-- A state where operation type "Y" has an average duration of 40. -/
def slowDB : DB :=
  { initDB with performance_metrics := [mkMetric "s1" "Y" true 40 0] }

/-- The running-mean update leaves the problem text unchanged. -/
theorem recordOutcomeUpdate_problem (w : Bool) (e : LearningEntry) :
    (recordOutcomeUpdate w e).problem = e.problem := rfl

/-- A singleton learning store tracks the per-entry update along a whole
sequence of matching `record_solution_success` calls. -/
theorem foldl_recordSolutionSuccess_single (e : LearningEntry)
    (calls : List (String × Bool))
    (hmatch : ∀ c ∈ calls, likeContains e.problem (c.1.take 50) = true) :
    (calls.foldl (fun db c => recordSolutionSuccess db c.1 c.2)
        { initDB with learning_entries := [e] }).learning_entries
      = [calls.foldl (fun a c => recordOutcomeUpdate c.2 a) e] := by
  induction calls generalizing e with
  | nil => rfl
  | cons c cs ih =>
    have hc : likeContains e.problem (c.1.take 50) = true :=
      hmatch c (List.mem_cons_self c cs)
    have hstep :
        recordSolutionSuccess { initDB with learning_entries := [e] } c.1 c.2
          = { initDB with learning_entries := [recordOutcomeUpdate c.2 e] } := by
      simp [recordSolutionSuccess, updateFirstMatch, hc]
    have hrest : ∀ d ∈ cs,
        likeContains (recordOutcomeUpdate c.2 e).problem (d.1.take 50) = true := by
      intro d hd
      rw [recordOutcomeUpdate_problem]
      exact hmatch d (List.mem_cons_of_mem c hd)
    simpa [hstep] using ih (recordOutcomeUpdate c.2 e) hrest

/-- Accumulated statistics of iterated running-mean updates:
`times_used` grows by one per call, and `effectiveness_score * times_used`
accumulates the outcome sum. -/
theorem fold_recordOutcomeUpdate_stats (os : List Bool) (e : LearningEntry) :
    (os.foldl (fun a w => recordOutcomeUpdate w a) e).times_used
        = e.times_used + os.length ∧
    (os.foldl (fun a w => recordOutcomeUpdate w a) e).effectiveness_score *
        ((e.times_used + os.length : ℕ) : ℚ)
      = e.effectiveness_score * (e.times_used : ℚ) + (os.map outcomeVal).sum := by
  induction os generalizing e with
  | nil => simp
  | cons w ws ih =>
    have hne : ((e.times_used + 1 : ℕ) : ℚ) ≠ 0 := by
      exact_mod_cast Nat.succ_ne_zero e.times_used
    have hstep :
        (recordOutcomeUpdate w e).effectiveness_score *
            (((recordOutcomeUpdate w e).times_used : ℕ) : ℚ)
          = e.effectiveness_score * (e.times_used : ℚ) + outcomeVal w := by
      show (e.effectiveness_score * (e.times_used : ℚ) + outcomeVal w) /
            ((e.times_used + 1 : ℕ) : ℚ) * ((e.times_used + 1 : ℕ) : ℚ)
          = e.effectiveness_score * (e.times_used : ℚ) + outcomeVal w
      exact div_mul_cancel₀ _ hne
    obtain ⟨iht, ihs⟩ := ih (recordOutcomeUpdate w e)
    constructor
    · simpa [recordOutcomeUpdate, Nat.add_assoc, Nat.add_comm 1 ws.length] using iht
    · have htimes : (recordOutcomeUpdate w e).times_used = e.times_used + 1 := rfl
      rw [List.foldl_cons, List.map_cons, List.sum_cons]
      rw [htimes] at ihs hstep
      have harr : e.times_used + (w :: ws).length = e.times_used + 1 + ws.length := by
        simp [Nat.add_assoc, Nat.add_comm 1 ws.length]
      rw [harr, ihs, hstep]
      ring

/-- C1: after a sequence of `record_solution_success` calls that all match a
fresh `LearningEntry`, the entry's `effectiveness_score` is the exact
arithmetic mean of the recorded 1.0/0.0 outcomes and `times_used` is the
number of calls; each single update computes
`new = (old * times_used + outcome) / (times_used + 1)` and then increments
`times_used`. -/
theorem recordSolutionSuccess_running_mean (e : LearningEntry)
    (calls : List (String × Bool))
    (hmatch : ∀ c ∈ calls, likeContains e.problem (c.1.take 50) = true)
    (hfresh : e.times_used = 0) (hne : calls ≠ []) :
    (∀ (w : Bool) (a : LearningEntry),
        (recordOutcomeUpdate w a).times_used = a.times_used + 1 ∧
        (recordOutcomeUpdate w a).effectiveness_score
          = (a.effectiveness_score * (a.times_used : ℚ) + outcomeVal w) /
              ((a.times_used : ℚ) + 1)) ∧
    ∃ e', (calls.foldl (fun db c => recordSolutionSuccess db c.1 c.2)
            { initDB with learning_entries := [e] }).learning_entries = [e'] ∧
      e'.times_used = calls.length ∧
      e'.effectiveness_score
        = (calls.map (fun c => outcomeVal c.2)).sum / (calls.length : ℚ) := by
  constructor
  · intro w a
    refine ⟨rfl, ?_⟩
    have hdef : (recordOutcomeUpdate w a).effectiveness_score
        = (a.effectiveness_score * (a.times_used : ℚ) + outcomeVal w) /
            ((a.times_used + 1 : ℕ) : ℚ) := rfl
    rw [hdef]
    push_cast
    ring
  · have hbase := foldl_recordSolutionSuccess_single e calls hmatch
    obtain ⟨ht, hs⟩ := fold_recordOutcomeUpdate_stats (calls.map (fun c => c.2)) e
    rw [List.foldl_map] at ht hs
    refine ⟨calls.foldl (fun a c => recordOutcomeUpdate c.2 a) e, hbase, ?_, ?_⟩
    · simpa [hfresh] using ht
    · have h0 : calls.length ≠ 0 := by
        simpa [List.length_eq_zero] using hne
      have hlen : ((calls.length : ℕ) : ℚ) ≠ 0 := Nat.cast_ne_zero.mpr h0
      rw [eq_div_iff hlen]
      simpa [hfresh, List.map_map, Function.comp] using hs

set_option maxRecDepth 8000 in
/-- Witness for C1: three matching calls with outcomes 1, 0, 1 leave
`times_used = 3` and `effectiveness_score = 2/3`. -/
theorem recordSolutionSuccess_running_mean_witness :
    (([("boom crash", true), ("boom crash", false), ("boom crash", true)] :
        List (String × Bool)).foldl
        (fun db c => recordSolutionSuccess db c.1 c.2)
        { initDB with learning_entries := [exampleEntry] }).learning_entries.map
      (fun e => (e.times_used, e.effectiveness_score)) = [(3, 2/3)] := by
  obtain ⟨-, e', h1, h2, h3⟩ := recordSolutionSuccess_running_mean exampleEntry
    [("boom crash", true), ("boom crash", false), ("boom crash", true)]
    (by decide) rfl (by decide)
  rw [h1]
  simp only [List.map_cons, List.map_nil, h2, h3]
  norm_num [outcomeVal]

/-- `_create_improvement_insight` writes only `optimization_insights`. -/
theorem createImprovementInsight_metrics (db : DB) (d : String) (i : ℚ)
    (id ts : String) :
    (createImprovementInsight db d i id ts).performance_metrics
      = db.performance_metrics := by
  unfold createImprovementInsight
  split <;> rfl

/-- `_create_improvement_insight` leaves `error_patterns` unchanged. -/
theorem createImprovementInsight_patterns (db : DB) (d : String) (i : ℚ)
    (id ts : String) :
    (createImprovementInsight db d i id ts).error_patterns = db.error_patterns := by
  unfold createImprovementInsight
  split <;> rfl

/-- `_create_improvement_insight` leaves the in-memory history unchanged. -/
theorem createImprovementInsight_history (db : DB) (d : String) (i : ℚ)
    (id ts : String) :
    (createImprovementInsight db d i id ts).performance_history
      = db.performance_history := by
  unfold createImprovementInsight
  split <;> rfl

/-- `_create_improvement_insight` leaves `learning_entries` unchanged. -/
theorem createImprovementInsight_entries (db : DB) (d : String) (i : ℚ)
    (id ts : String) :
    (createImprovementInsight db d i id ts).learning_entries
      = db.learning_entries := by
  unfold createImprovementInsight
  split <;> rfl

/-- `_analyze_performance` never touches the metrics table itself. -/
theorem analyzePerformance_metrics (db : DB) (m : PerformanceMetrics)
    (lowId slowId ts : String) :
    (analyzePerformance db m lowId slowId ts).performance_metrics
      = db.performance_metrics := by
  simp only [analyzePerformance]
  split <;> split <;>
    simp [createImprovementInsight_metrics]

/-- `_analyze_performance` never touches `error_patterns`. -/
theorem analyzePerformance_patterns (db : DB) (m : PerformanceMetrics)
    (lowId slowId ts : String) :
    (analyzePerformance db m lowId slowId ts).error_patterns
      = db.error_patterns := by
  simp only [analyzePerformance]
  split <;> split <;>
    simp [createImprovementInsight_patterns]

/-- `_analyze_performance` never touches the in-memory history. -/
theorem analyzePerformance_history (db : DB) (m : PerformanceMetrics)
    (lowId slowId ts : String) :
    (analyzePerformance db m lowId slowId ts).performance_history
      = db.performance_history := by
  simp only [analyzePerformance]
  split <;> split <;>
    simp [createImprovementInsight_history]

/-- `_analyze_performance` never touches `learning_entries`. -/
theorem analyzePerformance_entries (db : DB) (m : PerformanceMetrics)
    (lowId slowId ts : String) :
    (analyzePerformance db m lowId slowId ts).learning_entries
      = db.learning_entries := by
  simp only [analyzePerformance]
  split <;> split <;>
    simp [createImprovementInsight_entries]

/-- `_store_learned_solution` writes only `learning_entries`. -/
theorem storeLearnedSolution_patterns (db : DB) (p : String) (s : Json)
    (src id ts : String) :
    (storeLearnedSolution db p s src id ts).error_patterns = db.error_patterns := by
  unfold storeLearnedSolution
  split <;> rfl

/-- `end_operation` on a found id and a fresh metrics key stores the closed
row and runs `_analyze_performance` on the updated state. -/
theorem endOperation_ok_eq (db : DB) (operation_id : String) (success : Bool)
    (error_message : Option String) (conf qual : ℚ) (tok : ℤ) (et : ℚ)
    (ts lowId slowId : String) (op : OpenOperation)
    (hfind : db.performance_history.find?
        (fun o => o.operation_id == operation_id) = some op)
    (hnew : db.performance_metrics.any
        (fun r => r.operation_id == operation_id) = false) :
    endOperation db operation_id success error_message conf qual tok et ts lowId slowId
      = .ok (analyzePerformance
          { db with performance_metrics := db.performance_metrics ++
              [closedMetrics operation_id op success error_message conf qual tok et ts] }
          (closedMetrics operation_id op success error_message conf qual tok et ts)
          lowId slowId ts) := by
  unfold endOperation
  rw [hfind]
  simp [storeMetrics, closedMetrics, hnew]

/-- `end_operation` on a found id whose key is already stored raises
`IntegrityError`. -/
theorem endOperation_error_eq (db : DB) (operation_id : String) (success : Bool)
    (error_message : Option String) (conf qual : ℚ) (tok : ℤ) (et : ℚ)
    (ts lowId slowId : String) (op : OpenOperation)
    (hfind : db.performance_history.find?
        (fun o => o.operation_id == operation_id) = some op)
    (hdup : db.performance_metrics.any
        (fun r => r.operation_id == operation_id) = true) :
    endOperation db operation_id success error_message conf qual tok et ts lowId slowId
      = .error .integrityError := by
  unfold endOperation
  rw [hfind]
  simp [storeMetrics, closedMetrics, hdup]

/-- C2 counterexample: on a failed text-generation call the synthesizer's
fallback dict carries the keys `alternative_solutions` and
`estimated_fix_time`, not the claimed `alternatives` / `estimated_effort`. -/
theorem synthesizeSolutions_fallback_keys_counterexample :
    jsonKeys (synthesizeSolutions "err" [] (.error ())) ≠
      ["recommended_solution", "confidence", "reasoning",
       "alternatives", "estimated_effort"] := by decide

/-- C2 (amended): whenever the text-generation collaborator raises, returns
a non-200 status, or yields output that cannot be parsed as JSON,
`_synthesize_solutions` returns exactly
`{"recommended_solution": "Manual review required", "confidence": 0.3,
"reasoning": "Unable to synthesize solutions", "alternative_solutions": [],
"estimated_fix_time": "unknown"}`. -/
theorem synthesizeSolutions_fallback_exact (error_message : String)
    (solutions : List Json) (resp : Except Unit (ℕ × Option Json))
    (hfail : genCallFailed resp = true) :
    synthesizeSolutions error_message solutions resp = synthesisFallback := by
  cases resp with
  | error u => rfl
  | ok p =>
    obtain ⟨status, parsed⟩ := p
    by_cases h200 : status = 200
    · subst h200
      cases parsed with
      | none => simp [synthesizeSolutions]
      | some j => simp [genCallFailed] at hfail
    · cases parsed <;> simp [synthesizeSolutions, h200]

/-- Witness for C2 (amended): a raised call yields the exact fallback. -/
theorem synthesizeSolutions_fallback_exact_witness :
    genCallFailed (.error ()) = true ∧
    synthesizeSolutions "err" [] (.error ()) = synthesisFallback :=
  ⟨rfl, synthesizeSolutions_fallback_exact "err" [] (.error ()) rfl⟩

set_option maxRecDepth 8000 in
/-- C3 counterexample: a state whose `learning_entries` match the query while
`error_patterns` is empty — the spec-level Learning Store lookup returns an
entry, yet `search_error_solution` still consults the external
collaborators instead of returning it. -/
theorem searchErrorSolution_learning_hit_counterexample :
    (lookupBySimilarProblem learnedOnlyDB "boom crash").isEmpty = false ∧
    ((searchErrorSolution learnedOnlyDB "boom crash" none failingResponses
        "e2" "t2").collaboratorsCalled).isEmpty = false := by decide

/-- C3 (amended): the hard short-circuit is keyed on
`_search_local_knowledge` — the `error_patterns` cache, not the
`learning_entries` table: whenever that local lookup is non-empty,
`search_error_solution` returns its result immediately, consults no
external collaborator (no search source and no text generation), and
leaves the state unchanged. -/
theorem searchErrorSolution_short_circuit (db : DB) (error_message : String)
    (context : Option Json) (rs : CollabResponses)
    (entry_id entry_timestamp : String)
    (hlocal : (searchLocalKnowledge db error_message).isEmpty = false) :
    searchErrorSolution db error_message context rs entry_id entry_timestamp
      = { results := searchLocalKnowledge db error_message
          collaboratorsCalled := []
          db := db } := by
  simp [searchErrorSolution, hlocal]

set_option maxRecDepth 8000 in
/-- Witness for C3 (amended): one cached error pattern short-circuits. -/
theorem searchErrorSolution_short_circuit_witness :
    (searchLocalKnowledge patternDB "boom crash").isEmpty = false ∧
    searchErrorSolution patternDB "boom crash" none failingResponses "e3" "t3"
      = { results := searchLocalKnowledge patternDB "boom crash"
          collaboratorsCalled := []
          db := patternDB } :=
  ⟨by decide,
   searchErrorSolution_short_circuit patternDB "boom crash" none failingResponses
     "e3" "t3" (by decide)⟩

/-- From `all (id ≠ ...)` to `any (id = ...) = false` over the insight table. -/
theorem any_id_false_of_all_bne {l : List OptimizationInsight} {id : String}
    (h : l.all (fun r => r.insight_id != id) = true) :
    l.any (fun r => r.insight_id == id) = false := by
  simp only [List.all_eq_true, bne_iff_ne, ne_eq] at h
  simp only [List.any_eq_false, beq_iff_eq]
  intro r hr
  exact h r hr

/-- Inserting an insight cannot erase an existing `any` witness. -/
theorem createImprovementInsight_any_mono (db : DB) (d : String) (i : ℚ)
    (id ts : String) (p : OptimizationInsight → Bool)
    (h : db.optimization_insights.any p = true) :
    (createImprovementInsight db d i id ts).optimization_insights.any p = true := by
  unfold createImprovementInsight
  split
  · exact h
  · simp [List.any_append, h]

/-- A fresh insight id really inserts a row carrying the description. -/
theorem createImprovementInsight_any_desc (db : DB) (d : String) (i : ℚ)
    (id ts : String)
    (hfresh : db.optimization_insights.any (fun r => r.insight_id == id) = false) :
    (createImprovementInsight db d i id ts).optimization_insights.any
      (fun r => r.description == d) = true := by
  unfold createImprovementInsight
  rw [hfresh]
  simp

/-- Inserting under one id keeps a distinct id fresh. -/
theorem createImprovementInsight_anyId_false (db : DB) (d : String) (i : ℚ)
    (id ts id2 : String)
    (h : db.optimization_insights.any (fun r => r.insight_id == id2) = false)
    (hne : id ≠ id2) :
    (createImprovementInsight db d i id ts).optimization_insights.any
      (fun r => r.insight_id == id2) = false := by
  unfold createImprovementInsight
  split
  · exact h
  · simp [List.any_append, h, hne]

/-- C4 counterexample: with operation type "X" at an all-time success rate of
1/2 (< 0.7) and a failing external reflection call, a `reflect_and_improve`
pass returns the fallback and creates no "Low success rate" insight at all. -/
theorem reflect_failure_no_insight_counterexample :
    successRateOf lowRateDB "X" < 7/10 ∧
    reflectAndImprove lowRateDB (.error ()) ["i1"] "t"
      = (reflectionFallback, lowRateDB) ∧
    ((reflectAndImprove lowRateDB (.error ()) ["i1"] "t").2).optimization_insights.countP
      (fun r => r.description == "Low success rate for X") = 0 := by
  refine ⟨?_, rfl, by decide⟩
  norm_num [successRateOf, metricsOfType, lowRateDB, mkMetric, initDB, List.filter]

/-- C4 (amended): the two local threshold rules live in
`_analyze_performance`, which `end_operation` invokes after storing the
closed row; they use all-time aggregates and involve no external call, so
they fire regardless of any collaborator outcome. `reflect_and_improve`
itself creates no insight when its external call fails — it only returns
the fixed fallback. -/
theorem local_threshold_rules_fire_in_analyze (dbR dbA dbE : DB)
    (resp : Except Unit (ℕ × Option Json)) (ids : List String)
    (m : PerformanceMetrics) (operation_id : String) (success : Bool)
    (error_message : Option String) (conf qual : ℚ) (tok : ℤ) (et : ℚ)
    (ts lowId slowId : String) (op : OpenOperation) :
    (genCallFailed resp = true →
      reflectAndImprove dbR resp ids ts = (reflectionFallback, dbR)) ∧
    (successRateOf dbA m.operation_type < 7/10 →
      dbA.optimization_insights.all (fun r => r.insight_id != lowId) = true →
      (analyzePerformance dbA m lowId slowId ts).optimization_insights.any
        (fun r => r.description == "Low success rate for " ++ m.operation_type)
        = true) ∧
    (avgDurationOf dbA m.operation_type > 30 →
      dbA.optimization_insights.all (fun r => r.insight_id != slowId) = true →
      slowId ≠ lowId →
      (analyzePerformance dbA m lowId slowId ts).optimization_insights.any
        (fun r => r.description == "Slow performance for " ++ m.operation_type)
        = true) ∧
    (dbE.performance_history.find?
        (fun o => o.operation_id == operation_id) = some op →
      dbE.performance_metrics.any
        (fun r => r.operation_id == operation_id) = false →
      endOperation dbE operation_id success error_message conf qual tok et ts lowId slowId
        = .ok (analyzePerformance
            { dbE with performance_metrics := dbE.performance_metrics ++
                [closedMetrics operation_id op success error_message conf qual tok et ts] }
            (closedMetrics operation_id op success error_message conf qual tok et ts)
            lowId slowId ts)) := by
  refine ⟨?_, ?_, ?_, ?_⟩
  · intro hfail
    cases resp with
    | error u => rfl
    | ok p =>
      obtain ⟨status, parsed⟩ := p
      by_cases h200 : status = 200
      · subst h200
        cases parsed with
        | none => simp [reflectAndImprove]
        | some j => simp [genCallFailed] at hfail
      · cases parsed <;> simp [reflectAndImprove, h200]
  · intro hlow hfresh
    have hfresh' := any_id_false_of_all_bne hfresh
    simp only [analyzePerformance]
    rw [if_pos hlow]
    split
    · exact createImprovementInsight_any_mono _ _ _ _ _ _
        (createImprovementInsight_any_desc _ _ _ _ _ hfresh')
    · exact createImprovementInsight_any_desc _ _ _ _ _ hfresh'
  · intro hslow hfreshS hneq
    have hS := any_id_false_of_all_bne hfreshS
    simp only [analyzePerformance]
    rw [if_pos hslow]
    by_cases hlow' : successRateOf dbA m.operation_type < 7/10
    · rw [if_pos hlow']
      exact createImprovementInsight_any_desc _ _ _ _ _
        (createImprovementInsight_anyId_false _ _ _ _ _ _ hS (Ne.symm hneq))
    · rw [if_neg hlow']
      exact createImprovementInsight_any_desc _ _ _ _ _ hS
  · intro hfind hnew
    exact endOperation_ok_eq dbE operation_id success error_message conf qual
      tok et ts lowId slowId op hfind hnew

/-- Witness for C4 (amended) at concrete states: a failing reflection pass,
a low-rate type "X", a slow type "Y", and a real `end_operation` reaching
`_analyze_performance`. -/
theorem local_threshold_rules_fire_in_analyze_witness :
    (reflectAndImprove lowRateDB (.error ()) [] "t"
      = (reflectionFallback, lowRateDB)) ∧
    ((analyzePerformance lowRateDB (mkMetric "m2" "X" false 1 0) "i1" "i2" "t").optimization_insights.any
      (fun r => r.description
        == "Low success rate for " ++ (mkMetric "m2" "X" false 1 0).operation_type)
      = true) ∧
    ((analyzePerformance slowDB (mkMetric "s1" "Y" true 40 0) "i1" "i2" "t").optimization_insights.any
      (fun r => r.description
        == "Slow performance for " ++ (mkMetric "s1" "Y" true 40 0).operation_type)
      = true) ∧
    (endOperation historyDB "op1" true none 0 0 0 5 "t" "i1" "i2"
      = .ok (analyzePerformance
          { historyDB with performance_metrics := historyDB.performance_metrics ++
              [closedMetrics "op1" ⟨"op1", "code_generation", 0⟩ true none 0 0 0 5 "t"] }
          (closedMetrics "op1" ⟨"op1", "code_generation", 0⟩ true none 0 0 0 5 "t")
          "i1" "i2" "t")) := by
  refine ⟨?_, ?_, ?_, ?_⟩
  · exact (local_threshold_rules_fire_in_analyze lowRateDB lowRateDB lowRateDB
      (.error ()) [] (mkMetric "m2" "X" false 1 0) "op1" true none 0 0 0 5 "t"
      "i1" "i2" ⟨"op1", "code_generation", 0⟩).1 rfl
  · exact (local_threshold_rules_fire_in_analyze lowRateDB lowRateDB lowRateDB
      (.error ()) [] (mkMetric "m2" "X" false 1 0) "op1" true none 0 0 0 5 "t"
      "i1" "i2" ⟨"op1", "code_generation", 0⟩).2.1
      (by norm_num [successRateOf, metricsOfType, lowRateDB, mkMetric, initDB,
        List.filter]) (by decide)
  · exact (local_threshold_rules_fire_in_analyze lowRateDB slowDB lowRateDB
      (.error ()) [] (mkMetric "s1" "Y" true 40 0) "op1" true none 0 0 0 5 "t"
      "i1" "i2" ⟨"op1", "code_generation", 0⟩).2.2.1
      (by norm_num [avgDurationOf, metricsOfType, slowDB, mkMetric, initDB,
        List.filter]) (by decide) (by decide)
  · exact (local_threshold_rules_fire_in_analyze lowRateDB lowRateDB historyDB
      (.error ()) [] (mkMetric "m2" "X" false 1 0) "op1" true none 0 0 0 5 "t"
      "i1" "i2" ⟨"op1", "code_generation", 0⟩).2.2.2 (by decide) (by decide)

/-- C5: the code at the failing input — two `_create_improvement_insight`
calls with the same description arrive with distinct generated ids
(`md5(description + time)` at two different times), so the
`INSERT OR IGNORE` keyed on `insight_id` inserts both rows and the
description is duplicated. -/
theorem createImprovementInsight_duplicate_description :
    ((createImprovementInsight
        (createImprovementInsight initDB "Low success rate for X" (1/2) "a3f2" "t1")
        "Low success rate for X" (1/2) "9d41" "t2").optimization_insights.countP
      (fun r => r.description == "Low success rate for X")) = 2 := by decide

/-- C6 counterexample: `end_operation` called with `success = true` and a
non-empty `error_message` stores the supplied message in the closed record
instead of dropping it. -/
theorem endOperation_keeps_error_message_counterexample :
    (endOperation historyDB "op1" true (some "oops") 0 0 0 5 "ts" "l1" "s1").toOption.map
      (fun db => db.performance_metrics.map (fun r => r.error_message))
      = some [some "oops"] := by
  rw [endOperation_ok_eq historyDB "op1" true (some "oops") 0 0 0 5 "ts" "l1" "s1"
      ⟨"op1", "code_generation", 0⟩ rfl rfl]
  simp [Except.toOption, analyzePerformance_metrics, closedMetrics, historyDB, initDB]

/-- C6 (amended): the closed record persisted by `end_operation` carries the
supplied `error_message` unchanged, for every value of `success` — the
message is present iff it was supplied, not iff `success` is false. -/
theorem endOperation_stores_error_message_as_supplied (db : DB)
    (operation_id : String) (success : Bool) (error_message : Option String)
    (conf qual : ℚ) (tok : ℤ) (et : ℚ) (ts lowId slowId : String)
    (op : OpenOperation)
    (hfind : db.performance_history.find?
        (fun o => o.operation_id == operation_id) = some op)
    (hnew : db.performance_metrics.any
        (fun r => r.operation_id == operation_id) = false) :
    ∃ db', endOperation db operation_id success error_message conf qual tok et
        ts lowId slowId = .ok db' ∧
      (db'.performance_metrics.filter
          (fun r => r.operation_id == operation_id)).map
        (fun r => r.error_message) = [error_message] := by
  refine ⟨_, endOperation_ok_eq db operation_id success error_message conf qual
    tok et ts lowId slowId op hfind hnew, ?_⟩
  rw [analyzePerformance_metrics]
  have hall := List.any_eq_false.mp hnew
  have hnil : db.performance_metrics.filter
      (fun r => r.operation_id == operation_id) = [] :=
    List.filter_eq_nil_iff.mpr hall
  simp [List.filter_append, hnil, closedMetrics]

/-- Witness for C6 (amended): a successful operation with a supplied message
keeps it in the stored row. -/
theorem endOperation_stores_error_message_witness :
    (endOperation historyDB "op1" true (some "oops") 0 0 0 5 "ts" "l1" "s1").toOption.map
      (fun db' => (db'.performance_metrics.filter
          (fun r => r.operation_id == "op1")).map (fun r => r.error_message))
      = some [some "oops"] := by
  obtain ⟨db', hok, hrow⟩ := endOperation_stores_error_message_as_supplied
    historyDB "op1" true (some "oops") 0 0 0 5 "ts" "l1" "s1"
    ⟨"op1", "code_generation", 0⟩ rfl rfl
  rw [hok]
  simp [Except.toOption, hrow]

/-- A failing Stack Overflow call degrades to the empty list. -/
theorem searchStackoverflow_failed (resp : Except Unit (ℕ × Json))
    (h : searchCallFailed resp = true) : searchStackoverflow resp = [] := by
  cases resp with
  | error u => rfl
  | ok p =>
    obtain ⟨status, data⟩ := p
    have hne : status ≠ 200 := by simpa [searchCallFailed] using h
    simp [searchStackoverflow, hne]

/-- A failing GitHub call degrades to the empty list. -/
theorem searchGithubIssues_failed (resp : Except Unit (ℕ × Json))
    (h : searchCallFailed resp = true) : searchGithubIssues resp = [] := by
  cases resp with
  | error u => rfl
  | ok p =>
    obtain ⟨status, data⟩ := p
    have hne : status ≠ 200 := by simpa [searchCallFailed] using h
    simp [searchGithubIssues, hne]

/-- C7: on a local-knowledge miss the aggregate returned to the caller is
always the concatenation of the independently wrapped collaborator results
(the function is total — no collaborator exception escapes), and any
collaborator that raised or returned a non-200 status contributes `[]`
while the others' results are kept. -/
theorem searchErrorSolution_failure_isolated (db : DB) (error_message : String)
    (context : Option Json) (rs : CollabResponses)
    (entry_id entry_timestamp : String)
    (hlocal : (searchLocalKnowledge db error_message).isEmpty = true) :
    (searchErrorSolution db error_message context rs entry_id entry_timestamp).results
      = searchStackoverflow rs.stackoverflow ++ searchGithubIssues rs.github ++
        (if engineIsUnreal context then searchUnrealForums error_message else []) ∧
    (searchCallFailed rs.stackoverflow = true →
      searchStackoverflow rs.stackoverflow = []) ∧
    (searchCallFailed rs.github = true →
      searchGithubIssues rs.github = []) := by
  refine ⟨?_, searchStackoverflow_failed rs.stackoverflow,
    searchGithubIssues_failed rs.github⟩
  simp [searchErrorSolution, hlocal]

/-- Witness for C7: Stack Overflow and the synthesizer raise, GitHub answers
with one issue — the caller still receives GitHub's normalized result. -/
theorem searchErrorSolution_failure_isolated_witness :
    ((searchErrorSolution initDB "err" none mixedResponses "e9" "t9").results
      = searchStackoverflow mixedResponses.stackoverflow ++
        searchGithubIssues mixedResponses.github ++
        (if engineIsUnreal none then searchUnrealForums "err" else [])) ∧
    searchStackoverflow mixedResponses.stackoverflow = [] ∧
    (searchErrorSolution initDB "err" none mixedResponses "e9" "t9").results
      = searchGithubIssues mixedResponses.github := by
  obtain ⟨h1, h2, -⟩ := searchErrorSolution_failure_isolated initDB "err" none
    mixedResponses "e9" "t9" rfl
  refine ⟨h1, h2 rfl, ?_⟩
  rw [h1, h2 rfl]
  simp [engineIsUnreal]

/-- C8: ending an operation id with no open record is a silent no-op — no
exception, nothing persisted, history and metrics untouched. -/
theorem endOperation_unknown_id_noop (db : DB) (operation_id : String)
    (success : Bool) (error_message : Option String) (conf qual : ℚ)
    (tok : ℤ) (et : ℚ) (ts lowId slowId : String)
    (hmiss : db.performance_history.find?
        (fun o => o.operation_id == operation_id) = none) :
    endOperation db operation_id success error_message conf qual tok et ts lowId slowId
      = .ok db := by
  unfold endOperation
  rw [hmiss]

/-- Witness for C8: ending a never-begun id on a fresh state returns the
state unchanged. -/
theorem endOperation_unknown_id_noop_witness :
    endOperation initDB "ghost" false (some "e") 0 0 0 1 "t" "l" "s"
      = .ok initDB :=
  endOperation_unknown_id_noop initDB "ghost" false (some "e") 0 0 0 1 "t" "l" "s" rfl

/-- `start_operation` writes only the in-memory history. -/
theorem startOperation_patterns (db : DB) (ty id : String) (t : ℚ) :
    (startOperation db ty id t).error_patterns = db.error_patterns := rfl

/-- `record_solution_success` writes only `learning_entries`. -/
theorem recordSolutionSuccess_patterns (db : DB) (p : String) (w : Bool) :
    (recordSolutionSuccess db p w).error_patterns = db.error_patterns := rfl

/-- The insight-persisting fold of `reflect_and_improve` leaves
`error_patterns` unchanged. -/
theorem foldl_insight_patterns (created_at : String) :
    ∀ (l : List (Json × String)) (db : DB),
      (l.foldl (fun d pi =>
          createImprovementInsight d
            (jsonAsStr (jgetD pi.1 "recommended_action" (.str "")))
            (jsonAsNum (jgetD pi.1 "current_metric" (.num 0)))
            pi.2 created_at) db).error_patterns
        = db.error_patterns := by
  intro l
  induction l with
  | nil => intro db; rfl
  | cons x xs ih =>
    intro db
    rw [List.foldl_cons, ih, createImprovementInsight_patterns]

/-- `reflect_and_improve` leaves `error_patterns` unchanged. -/
theorem reflectAndImprove_patterns (db : DB)
    (resp : Except Unit (ℕ × Option Json)) (ids : List String) (ts : String) :
    ((reflectAndImprove db resp ids ts).2).error_patterns = db.error_patterns := by
  cases resp with
  | error u => rfl
  | ok p =>
    obtain ⟨status, parsed⟩ := p
    by_cases h200 : status = 200
    · subst h200
      cases parsed with
      | none => rfl
      | some reflection =>
        simp only [reflectAndImprove, if_pos rfl]
        exact foldl_insight_patterns ts ((improvementPriorities reflection).zip ids) db
    · cases parsed <;> simp [reflectAndImprove, h200]

/-- `search_error_solution` leaves `error_patterns` unchanged. -/
theorem searchErrorSolution_patterns (db : DB) (msg : String)
    (ctx : Option Json) (rs : CollabResponses) (eid ets : String) :
    ((searchErrorSolution db msg ctx rs eid ets).db).error_patterns
      = db.error_patterns := by
  simp only [searchErrorSolution]
  by_cases hl : (searchLocalKnowledge db msg).isEmpty = true
  · rw [if_pos hl]
    exact storeLearnedSolution_patterns db msg _ "web_search" eid ets
  · rw [if_neg hl]

/-- A successful `_store_metrics` leaves `error_patterns` unchanged. -/
theorem storeMetrics_ok_patterns (db : DB) (m : PerformanceMetrics) :
    ∀ db1, storeMetrics db m = .ok db1 → db1.error_patterns = db.error_patterns := by
  intro db1 h
  unfold storeMetrics at h
  split at h
  · exact Except.noConfusion h
  · injection h with h
    rw [← h]

/-- A successful `end_operation` leaves `error_patterns` unchanged. -/
theorem endOperation_ok_patterns (db : DB) (operation_id : String)
    (success : Bool) (error_message : Option String) (conf qual : ℚ)
    (tok : ℤ) (et : ℚ) (ts lowId slowId : String) :
    ∀ db', endOperation db operation_id success error_message conf qual tok et
        ts lowId slowId = .ok db' →
      db'.error_patterns = db.error_patterns := by
  intro db' h
  unfold endOperation at h
  split at h
  · injection h with h
    rw [← h]
  · rename_i op hfind
    dsimp only at h
    generalize hsm : storeMetrics db
      (closedMetrics operation_id op success error_message conf qual tok et ts)
      = res at h
    cases res with
    | error e => exact Except.noConfusion h
    | ok db1 =>
      injection h with h
      rw [← h, analyzePerformance_patterns]
      exact storeMetrics_ok_patterns db _ db1 hsm

/-- No operation of the system ever writes `error_patterns`. -/
theorem applyEvent_patterns (db : DB) (e : Event) :
    (applyEvent db e).error_patterns = db.error_patterns := by
  cases e with
  | startOp ty id t => exact startOperation_patterns db ty id t
  | endOp id s em c q tok et ts li si =>
    simp only [applyEvent]
    cases hres : endOperation db id s em c q tok et ts li si with
    | ok db' => exact endOperation_ok_patterns db id s em c q tok et ts li si db' hres
    | error er => rfl
  | search msg ctx rs eid ets => exact searchErrorSolution_patterns db msg ctx rs eid ets
  | recordOutcome p w => exact recordSolutionSuccess_patterns db p w
  | reflect resp ids ts => exact reflectAndImprove_patterns db resp ids ts

/-- In every reachable state the `error_patterns` table is empty. -/
theorem replay_patterns_nil (events : List Event) :
    (replay events).error_patterns = [] := by
  suffices h : ∀ db, ((events.foldl applyEvent db).error_patterns
      = db.error_patterns) by
    simpa [replay] using h initDB
  induction events with
  | nil => intro db; rfl
  | cons e es ih =>
    intro db
    rw [List.foldl_cons, ih, applyEvent_patterns]

/-- C9: starting from a fresh database, no operation ever writes a row into
`error_patterns`; since `_search_local_knowledge` reads only that table,
the local lookup is empty in every reachable state and
`search_error_solution` always proceeds to the external collaborators —
cached learned solutions never short-circuit a repeated search. -/
theorem searchErrorSolution_never_short_circuits (events : List Event)
    (error_message : String) (context : Option Json) (rs : CollabResponses)
    (entry_id entry_timestamp : String) :
    (replay events).error_patterns = [] ∧
    searchLocalKnowledge (replay events) error_message = [] ∧
    (searchErrorSolution (replay events) error_message context rs entry_id
        entry_timestamp).collaboratorsCalled
      = ["stackoverflow", "github"] ++
          (if engineIsUnreal context then ["unreal_forums"] else []) ++
          ["text_generation"] := by
  have hep := replay_patterns_nil events
  have hsk : searchLocalKnowledge (replay events) error_message = [] := by
    unfold searchLocalKnowledge
    rw [hep]
    rfl
  refine ⟨hep, hsk, ?_⟩
  simp [searchErrorSolution, hsk]

/-- A successful `_store_metrics` leaves the in-memory history unchanged. -/
theorem storeMetrics_ok_history (db : DB) (m : PerformanceMetrics) :
    ∀ db1, storeMetrics db m = .ok db1 →
      db1.performance_history = db.performance_history := by
  intro db1 h
  unfold storeMetrics at h
  split at h
  · exact Except.noConfusion h
  · injection h with h
    rw [← h]

/-- A successful `end_operation` never removes the open record: the
in-memory history is unchanged. -/
theorem endOperation_ok_history (db : DB) (operation_id : String)
    (success : Bool) (error_message : Option String) (conf qual : ℚ)
    (tok : ℤ) (et : ℚ) (ts lowId slowId : String) :
    ∀ db', endOperation db operation_id success error_message conf qual tok et
        ts lowId slowId = .ok db' →
      db'.performance_history = db.performance_history := by
  intro db' h
  unfold endOperation at h
  split at h
  · injection h with h
    rw [← h]
  · rename_i op hfind
    dsimp only at h
    generalize hsm : storeMetrics db
      (closedMetrics operation_id op success error_message conf qual tok et ts)
      = res at h
    cases res with
    | error e => exact Except.noConfusion h
    | ok db1 =>
      injection h with h
      rw [← h, analyzePerformance_history]
      exact storeMetrics_ok_history db _ db1 hsm

/-- C10: `end_operation` keeps the closed record in `performance_history`;
it fails with an integrity error exactly when the id is both still open in
the history and already present in `performance_metrics`; consequently a
second `end_operation` on an id that was just closed finds the record
again, re-INSERTs the same primary key, and raises instead of no-opping. -/
theorem endOperation_raises_iff_reclosed (db : DB) (operation_id : String)
    (success s2 : Bool) (error_message em2 : Option String)
    (conf qual c2 q2 : ℚ) (tok tok2 : ℤ) (et et2 : ℚ)
    (ts lowId slowId ts2 lowId2 slowId2 : String) :
    (∀ db', endOperation db operation_id success error_message conf qual tok et
        ts lowId slowId = .ok db' →
      db'.performance_history = db.performance_history) ∧
    ((endOperation db operation_id success error_message conf qual tok et ts
        lowId slowId = .error .integrityError) ↔
      ((db.performance_history.find?
          (fun o => o.operation_id == operation_id)).isSome ∧
        db.performance_metrics.any
          (fun r => r.operation_id == operation_id) = true)) ∧
    (∀ op, db.performance_history.find?
        (fun o => o.operation_id == operation_id) = some op →
      db.performance_metrics.any
        (fun r => r.operation_id == operation_id) = false →
      ∀ db', endOperation db operation_id success error_message conf qual tok
          et ts lowId slowId = .ok db' →
        endOperation db' operation_id s2 em2 c2 q2 tok2 et2 ts2 lowId2 slowId2
          = .error .integrityError) := by
  refine ⟨endOperation_ok_history db operation_id success error_message conf
    qual tok et ts lowId slowId, ?_, ?_⟩
  · cases hfind : db.performance_history.find?
        (fun o => o.operation_id == operation_id) with
    | none =>
      have hok : endOperation db operation_id success error_message conf qual
          tok et ts lowId slowId = .ok db := by
        unfold endOperation
        rw [hfind]
      simp [hok, hfind]
    | some op =>
      cases hdup : db.performance_metrics.any
          (fun r => r.operation_id == operation_id) with
      | false =>
        have hok := endOperation_ok_eq db operation_id success error_message
          conf qual tok et ts lowId slowId op hfind hdup
        simp [hok, hfind, hdup]
      | true =>
        have herr := endOperation_error_eq db operation_id success error_message
          conf qual tok et ts lowId slowId op hfind hdup
        simp [herr, hfind, hdup]
  · intro op hfind hnew db' hok
    rw [endOperation_ok_eq db operation_id success error_message conf qual tok
      et ts lowId slowId op hfind hnew] at hok
    injection hok with hok
    refine endOperation_error_eq db' operation_id s2 em2 c2 q2 tok2 et2 ts2
      lowId2 slowId2 op ?_ ?_
    · rw [← hok, analyzePerformance_history]
      exact hfind
    · rw [← hok, analyzePerformance_metrics]
      simp [List.any_append, closedMetrics]

/-- Witness for C10: closing "op1" keeps its history record, and a second
`end_operation` on "op1" raises the integrity error. -/
theorem endOperation_raises_iff_reclosed_witness :
    ((endOperation historyDB "op1" true none 0 0 0 5 "t" "l" "s").toOption.map
      (fun db' => db'.performance_history)) = some historyDB.performance_history ∧
    ((endOperation historyDB "op1" true none 0 0 0 5 "t" "l" "s").toOption.map
      (fun db' => endOperation db' "op1" false none 0 0 0 6 "u" "l2" "s2"))
      = some (.error .integrityError) := by
  obtain ⟨h1, h2, h3⟩ := endOperation_raises_iff_reclosed historyDB "op1" true
    false none none 0 0 0 0 0 0 5 6 "t" "l" "s" "u" "l2" "s2"
  cases hres : endOperation historyDB "op1" true none 0 0 0 5 "t" "l" "s" with
  | error e =>
    cases e
    exact absurd (h2.mp hres).2 (by decide)
  | ok db' =>
    refine ⟨?_, ?_⟩
    · simp [Except.toOption, h1 db' hres]
    · simp [Except.toOption, h3 ⟨"op1", "code_generation", 0⟩ rfl rfl db' hres]
